import Mathlib

/-!
Verification of the compiled-script runtime of `src/src/compiler/jsexecute.js`
and the `EventEmitter` class of `src/unnamed/part_000`.

JavaScript values that can flow through the runtime's primitive functions are
modelled by `JSVal`; JavaScript numbers are modelled by exact rationals
(`ℚ`, with a separate `nan` marker), which is faithful for every
integer-valued and short-decimal input used here.  String operations are
implemented over the character list of a `String` so that all definitions
are executable by the kernel.
-/

namespace SVM

/-- Model of a JavaScript value reaching the runtime primitives:
`null`, a boolean, a (finite) number, `NaN`, or a string. -/
inductive JSVal where
  | null
  | bool (b : Bool)
  | num (q : ℚ)
  | nan
  | str (s : String)
deriving DecidableEq, Repr

/-- Remove leading and trailing whitespace characters, as
`String.prototype.trim` does. -/
def trimChars (s : List Char) : List Char :=
  ((s.dropWhile Char.isWhitespace).reverse.dropWhile Char.isWhitespace).reverse

/-- `String.prototype.trim`. -/
def jsTrim (s : String) : String :=
  String.mk (trimChars s.data)

/-- `String.prototype.toLowerCase` (ASCII case folding). -/
def jsToLower (s : String) : String :=
  String.mk (s.data.map Char.toLower)

/-- Value of a non-empty all-digit character run, else `none`. -/
def digitsFold (cs : List Char) : Nat :=
  cs.foldl (fun a c => a * 10 + (c.toNat - 48)) 0

/-- Parse a non-empty decimal digit string. -/
def decDigitsVal (cs : List Char) : Option Nat :=
  if cs.isEmpty then none
  else if cs.all Char.isDigit then some (digitsFold cs) else none

/-- Parse an unsigned decimal mantissa (`digits`, `digits.digits`,
`digits.`, or `.digits`), returning `(numerator, fractionDigits)` so that
the value is `numerator / 10 ^ fractionDigits`. -/
def mantissaVal (cs : List Char) : Option (Int × Nat) :=
  match cs.splitOn '.' with
  | [ds] => (decDigitsVal ds).map (fun n => ((n : Int), 0))
  | [l, r] =>
    if l.isEmpty && r.isEmpty then none
    else if l.all Char.isDigit && r.all Char.isDigit then
      some (((digitsFold l * 10 ^ r.length + digitsFold r : Nat) : Int), r.length)
    else none
  | _ => none

/-- Strip an optional leading sign, returning the sign as `1` or `-1`. -/
def takeSign : List Char → (Int × List Char)
  | '+' :: rest => (1, rest)
  | '-' :: rest => (-1, rest)
  | cs => (1, cs)

/-- JavaScript `Number(string)` coercion, restricted to decimal numeric
literals (optional sign, digits with optional fraction, optional decimal
exponent); a whitespace-only string is `0` and anything unparsable is `NaN`
(`none`).  `Infinity` and radix-prefixed literals are outside the model;
no value those inputs produce is representable in `ℚ` or used by the spec. -/
def strToNumber (s : String) : Option ℚ :=
  let t := trimChars s.data
  if t.isEmpty then some 0
  else
    match (t.map Char.toLower).splitOn 'e' with
    | [m] =>
      let (sg, m2) := takeSign m
      (mantissaVal m2).map (fun p => mkRat (sg * p.1) (10 ^ p.2))
    | [m, ex] =>
      let (sg, m2) := takeSign m
      let (es, ed) := takeSign ex
      match mantissaVal m2, decDigitsVal ed with
      | some p, some e =>
        if es = 1 then some (mkRat (sg * p.1 * (10 ^ e : Nat)) (10 ^ p.2))
        else some (mkRat (sg * p.1) (10 ^ (p.2 + e)))
      | _, _ => none
    | _ => none

/-- JavaScript unary `+` numeric coercion on a `JSVal`; `none` is `NaN`. -/
def jsToNumber : JSVal → Option ℚ
  | .null => some 0
  | .bool b => some (if b then 1 else 0)
  | .num q => some q
  | .nan => none
  | .str s => strToNumber s

/-- JavaScript `ToString`, as produced by `value + ''`.  Faithful for
`null`, booleans, `NaN`, strings and integer-valued numbers; a non-integer
rational prints as `num/den` (JavaScript float formatting has no exact
rational counterpart, and every claim uses integer elements). -/
def jsToString : JSVal → String
  | .null => "null"
  | .bool b => if b then "true" else "false"
  | .num q => if q.den = 1 then toString q.num else toString q.num ++ "/" ++ toString q.den
  | .nan => "NaN"
  | .str s => s

/-- `isWhiteSpace` from `jsexecute.js`:
`val === null || (typeof val === 'string' && val.trim().length === 0)`. -/
def isWhiteSpace : JSVal → Bool
  | .null => true
  | .str s => (jsTrim s).length == 0
  | _ => false

/-- The case-insensitive string comparison used as the fallback path of
`compareEqual`: `('' + v1).toLowerCase() === ('' + v2).toLowerCase()`. -/
def strEqCI (v1 v2 : JSVal) : Bool :=
  jsToLower (jsToString v1) == jsToLower (jsToString v2)

/-- `compareEqual` from `jsexecute.js`: numeric coercion of both operands,
the whitespace-as-zero carve-out (`if`/`else if`, so only applied to `v1`
when both sides qualify), then numeric equality unless either effective
operand is `NaN`, in which case lowercased string equality. -/
def compareEqual (v1 v2 : JSVal) : Bool :=
  let n1 := jsToNumber v1
  let n2 := jsToNumber v2
  let p :=
    if n1 == some 0 && isWhiteSpace v1 then ((none : Option ℚ), n2)
    else if n2 == some 0 && isWhiteSpace v2 then (n1, (none : Option ℚ))
    else (n1, n2)
  match p with
  | (some a, some b) => a == b
  | _ => strEqCI v1 v2

/-- Does `pat` occur as a contiguous substring of `s`
(JavaScript `String.prototype.includes`)? -/
def charsInfix (pat : List Char) : List Char → Bool
  | [] => pat.isEmpty
  | c :: t => pat.isPrefixOf (c :: t) || charsInfix pat t

/-- `source.includes(functionName)`. -/
def jsIncludes (source pat : String) : Bool :=
  charsInfix pat.data source.data

/-- The keys of the `runtimeFunctions` object, in the insertion order of
`jsexecute.js` (each key's associated JavaScript definition text is
identified here by its key). -/
def runtimeFunctionNames : List String :=
  ["isStuck", "startHats", "waitThreads", "executeInCompatibilityLayer",
   "callAddonBlock", "retire", "toBoolean", "compareGreaterThan",
   "compareLessThan", "randomInt", "randomFloat", "timer", "daysSince2000",
   "distance", "listGet", "listReplace", "listInsert", "listDelete",
   "listContains", "listIndexOf", "listContents", "colorToList", "mod"]

/-- The definitions accumulated into `baseRuntime` by `jsexecute.js`,
in order: `isWhiteSpace`, `compareEqual`, and `listIndex`. -/
def baseRuntimeDefs : List String :=
  ["isWhiteSpace", "compareEqual", "listIndex"]

/-- `insertRuntime` from `jsexecute.js`, abstracted to the list of
definitions the assembled unit contains, in order: `baseRuntime` first,
then every `runtimeFunctions` entry whose key occurs textually in the
source (the script body is appended after these as `return source`). -/
def insertRuntimeDefs (source : String) : List String :=
  baseRuntimeDefs ++ runtimeFunctionNames.filter (fun n => jsIncludes source n)

/-- Truncation of a rational toward zero, as JavaScript's number-to-integer
steps do. -/
def ratTrunc (q : ℚ) : Int :=
  if 0 ≤ q then ⌊q⌋ else ⌈q⌉

/-- 2 ^ 31. -/
def two31 : Int := 2147483648

/-- 2 ^ 32. -/
def two32 : Int := 4294967296

/-- JavaScript `value | 0` on a finite number: `ToInt32`, i.e. truncation
toward zero followed by a signed 32-bit wrap. -/
def jsToInt32 (q : ℚ) : Int :=
  (ratTrunc q + two31) % two32 - two31

/-- JavaScript `value || 0` applied to the result of a numeric coercion:
`NaN` (and `0` itself) become `0`. -/
def jsOr0 : Option ℚ → ℚ
  | none => 0
  | some q => q

/-- The shared tail of `listIndex`: `index = index | 0` followed by the
range check `index < 1 || index > length ? -1 : index - 1`. -/
def finishIdx (i : Int) (length : Nat) : Int :=
  if i < 1 ∨ i > (length : Int) then -1 else i - 1

/-- `listIndex` from `jsexecute.js`.  `r` models the `Math.random()` sample
(a rational in `[0, 1)`) consumed by the `'random'`/`'*'` branch. -/
def listIndex (r : ℚ) (index : JSVal) (length : Nat) : Int :=
  match index with
  | .num q => finishIdx (jsToInt32 q) length
  | .nan => finishIdx 0 length
  | .str s =>
    if s = "last" then
      if length > 0 then (length : Int) - 1 else -1
    else if s = "random" ∨ s = "*" then
      if length > 0 then jsToInt32 (r * (length : ℚ)) else -1
    else finishIdx (jsToInt32 (jsOr0 (strToNumber s))) length
  | .null => finishIdx (jsToInt32 (jsOr0 (jsToNumber .null))) length
  | .bool b => finishIdx (jsToInt32 (jsOr0 (jsToNumber (.bool b)))) length

/-- JavaScript `n % modulus` (truncating remainder) on finite numbers with
a nonzero modulus. -/
def jsRem (n m : ℚ) : ℚ :=
  n - m * (ratTrunc (n / m) : ℚ)

/-- `mod` from `jsexecute.js`:
`let result = n % modulus; if (result / modulus < 0) result += modulus;`.
Faithful for a nonzero modulus (with modulus `0` JavaScript yields `NaN`,
which `ℚ` does not carry). -/
def mod (n modulus : ℚ) : ℚ :=
  let result := jsRem n modulus
  if result / modulus < 0 then result + modulus else result

/-- A Scratch list variable as the list primitives see it: the `value`
array and the `_monitorUpToDate` stale-cache flag. -/
structure ScratchList where
  value : List JSVal
  _monitorUpToDate : Bool
deriving DecidableEq, Repr

/-- Stringification of an element inside `Array.prototype.join`
(`null` renders as the empty string there, unlike `'' + null`). -/
def jsJoinElem : JSVal → String
  | .null => ""
  | v => jsToString v

/-- `Array.prototype.join(sep)`. -/
def jsJoin (sep : String) : List JSVal → String
  | [] => ""
  | [x] => jsJoinElem x
  | x :: y :: xs => jsJoinElem x ++ sep ++ jsJoin sep (y :: xs)

/-- `listContents` from `jsexecute.js`: scan for any element whose
stringification does not have length exactly 1; if one exists join the
whole list with a single space, otherwise join with no separator. -/
def listContents (list : ScratchList) : String :=
  if list.value.any (fun listItem => !((jsToString listItem).length == 1)) then
    jsJoin " " list.value
  else jsJoin "" list.value

/-- `listGet` from `jsexecute.js`: empty-string sentinel on invalid index.
(The primitive receives a plain array, hence a `List JSVal` here.) -/
def listGet (r : ℚ) (list : List JSVal) (idx : JSVal) : JSVal :=
  let index := listIndex r idx list.length
  if index = -1 then .str ""
  else (list.get? index.toNat).getD (.str "")

/-- `listReplace` from `jsexecute.js`: no-op on invalid index, else write
the element in place and clear `_monitorUpToDate`. -/
def listReplace (r : ℚ) (list : ScratchList) (idx : JSVal) (value : JSVal) : ScratchList :=
  let index := listIndex r idx list.value.length
  if index = -1 then list
  else { value := list.value.set index.toNat value, _monitorUpToDate := false }

/-- `listInsert` from `jsexecute.js`: the index is validated against
`length + 1`; no-op on invalid index, else splice the value in and clear
`_monitorUpToDate`. -/
def listInsert (r : ℚ) (list : ScratchList) (idx : JSVal) (value : JSVal) : ScratchList :=
  let index := listIndex r idx (list.value.length + 1)
  if index = -1 then list
  else { value := list.value.insertIdx index.toNat value, _monitorUpToDate := false }

/-- `listDelete` from `jsexecute.js`: the `'all'` special case empties the
list and returns at once (without touching `_monitorUpToDate`); otherwise
no-op on invalid index, else splice the element out and clear the flag. -/
def listDelete (r : ℚ) (list : ScratchList) (idx : JSVal) : ScratchList :=
  if idx = .str "all" then { list with value := [] }
  else
    let index := listIndex r idx list.value.length
    if index = -1 then list
    else { value := list.value.eraseIdx index.toNat, _monitorUpToDate := false }

/-- `isStuck` from `jsexecute.js`, with its module-level `stuckCounter`
made an explicit argument and the sequencer timer reading passed in as
`elapsed`.  Returns (result, new counter, whether the timer was read). -/
def isStuck (elapsed : ℚ) (stuckCounter : Nat) : Bool × Nat × Bool :=
  let c := stuckCounter + 1
  if c = 100 then (decide (elapsed > 500), 0, true)
  else (false, c, false)

/-- Thread status codes: `0` RUNNING, `1` PROMISE_WAIT, `2` YIELD,
`3` YIELD_TICK, `4` DONE. -/
inductive ThreadStatus where
  | running
  | promiseWait
  | yield
  | yieldTick
  | done
deriving DecidableEq, Repr

/-- The observable state touched by `waitPromise` and the promise handlers
it attaches: the thread status, the number of warnings logged so far, and
the generator-local `returnValue` (`none` is `undefined`). -/
structure WaitPromiseState where
  status : ThreadStatus
  warnings : Nat
  returnValue : Option JSVal
deriving DecidableEq, Repr

/-- The part of `waitPromise` executed before its `yield`: `returnValue`
is freshly `undefined`, the handlers are attached, and the thread enters
STATUS_PROMISE_WAIT. -/
def waitPromiseEnter (s : WaitPromiseState) : WaitPromiseState :=
  { s with returnValue := none, status := .promiseWait }

/-- The `.then` handler attached by `waitPromise`: record the value and
set the thread back to STATUS_RUNNING. -/
def promiseResolve (v : JSVal) (s : WaitPromiseState) : WaitPromiseState :=
  { s with returnValue := some v, status := .running }

/-- The `.catch` handler attached by `waitPromise`: set the thread back to
STATUS_RUNNING and log a warning; `returnValue` is left untouched. -/
def promiseReject (s : WaitPromiseState) : WaitPromiseState :=
  { s with status := .running, warnings := s.warnings + 1 }

/-- The part of `waitPromise` executed after its `yield` resumes:
`return returnValue`. -/
def waitPromiseResume (s : WaitPromiseState) : Option JSVal :=
  s.returnValue

/-- The `anyRunning` scan of `waitThreads`: is any of the given threads
still in `runtime.threads` (membership via `indexOf !== -1`)? -/
def anyRunning (runtimeThreads threads : List Nat) : Bool :=
  threads.any (fun t => runtimeThreads.contains t)

/-- The `allWaiting` scan of `waitThreads`: is every given thread waiting
per `runtime.isWaitingThread` (modelled as membership in a waiting set)? -/
def allWaiting (waitingThreads threads : List Nat) : Bool :=
  threads.all (fun t => waitingThreads.contains t)

/-- The `waitThreads` generator, run against a finite trace of scheduler
snapshots (one `(runtime.threads, waiting set)` pair observed per loop
iteration).  Returns `some (yields, status)` -- the number of times the
generator yielded and the final thread status -- when the loop returns
within the trace, and `none` when it is still suspended after consuming
the whole trace. -/
def waitThreadsRun : List (List Nat × List Nat) → List Nat → ThreadStatus →
    Option (Nat × ThreadStatus)
  | [], _, _ => none
  | (rt, wt) :: rest, threads, status =>
    if anyRunning rt threads then
      let status1 := if allWaiting wt threads then ThreadStatus.yieldTick else status
      match waitThreadsRun rest threads status1 with
      | none => none
      | some (y, s) => some (y + 1, s)
    else some (0, status)

/-- The `EventEmitter` of `src/unnamed/part_000`: `listerMap` is its array
of `\x7beventName, listener\x7d` records, a listener being abstracted to
an identifier. -/
structure EventEmitter where
  listerMap : List (String × Nat)
deriving DecidableEq, Repr

/-- `EventEmitter.on`: push a new record onto `listerMap`. -/
def EventEmitter.on (e : EventEmitter) (eventName : String) (listener : Nat) :
    EventEmitter :=
  { listerMap := e.listerMap ++ [(eventName, listener)] }

/-- JavaScript strict equality between an `\x7beventName, listener\x7d`
record object and a string argument: always false (an object is never
`===` a primitive string). -/
def recordEqName (rec : String × Nat) (name : String) : Bool :=
  false

/-- `Array.prototype.indexOf` over `listerMap` with a string argument:
the index of the first strictly-equal element, else `-1`. -/
def jsIndexOf (l : List (String × Nat)) (name : String) : Int :=
  match l.findIdx? (fun rec => recordEqName rec name) with
  | some i => (i : Int)
  | none => -1

/-- Property access `.listener` on the number returned by `indexOf`: a
primitive number has no such property, so the access yields `undefined`
(`none`). -/
def numberGetListener (n : Int) : Option Nat :=
  none

/-- Outcome of `EventEmitter.emit`: either a TypeError was thrown, or some
listener was actually invoked with the given arguments. -/
inductive EmitOutcome where
  | typeError
  | called (listener : Nat) (args : List JSVal)
deriving DecidableEq, Repr

/-- `EventEmitter.emit`: `const emitter = this.listerMap.indexOf(eventName);
emitter.listener(param);` -- calling the `undefined` obtained from a
property access on a number throws a TypeError. -/
def EventEmitter.emit (e : EventEmitter) (eventName : String)
    (args : List JSVal) : EmitOutcome :=
  let emitter := jsIndexOf e.listerMap eventName
  match numberGetListener emitter with
  | none => .typeError
  | some f => .called f args

/-- C3: if the promise awaited by `waitPromise` rejects, the rejection is
caught and logged as a warning, the thread status goes from PROMISE_WAIT
back to RUNNING, and the resumed generator returns `undefined`; execution
continues (the handler produces a state, never an exception). -/
theorem waitPromise_reject_spec :
    ∀ s : WaitPromiseState,
      (waitPromiseEnter s).status = ThreadStatus.promiseWait ∧
      (promiseReject (waitPromiseEnter s)).status = ThreadStatus.running ∧
      (promiseReject (waitPromiseEnter s)).warnings = s.warnings + 1 ∧
      waitPromiseResume (promiseReject (waitPromiseEnter s)) = none := by
  intro s
  exact ⟨rfl, rfl, rfl, rfl⟩

/-- C8: every call with the counter below 99 (the 99 calls after a reset)
returns false without reading the timer and just increments the counter;
the call that brings the counter to 100 resets it to 0, reads the timer,
and returns true exactly when more than 500ms have elapsed. -/
theorem isStuck_spec :
    (∀ (c : Nat) (e : ℚ), c < 99 → isStuck e c = (false, c + 1, false))
  ∧ (∀ e : ℚ, (isStuck e 99).2.1 = 0 ∧ (isStuck e 99).2.2 = true ∧
      ((isStuck e 99).1 = true ↔ e > 500)) := by
  constructor
  · intro c e hc
    unfold isStuck
    rw [if_neg (by omega)]
  · intro e
    unfold isStuck
    rw [if_pos rfl]
    exact ⟨rfl, rfl, by simp⟩

/-- Closed instance of `isStuck_spec`. -/
theorem isStuck_spec_witness :
    isStuck 0 5 = (false, 5 + 1, false) ∧ (isStuck 501 99).2.1 = 0 :=
  ⟨isStuck_spec.1 5 0 (by omega), (isStuck_spec.2 501).1⟩

/-- C9: when every thread in the list is absent from the scheduler's
active set at the first check, `waitThreads` returns at once: zero yields
and the current thread's status is unchanged. -/
theorem waitThreads_spec :
    ∀ (rt wt : List Nat) (rest : List (List Nat × List Nat))
      (threads : List Nat) (status : ThreadStatus),
      (∀ t ∈ threads, t ∉ rt) →
      waitThreadsRun ((rt, wt) :: rest) threads status = some (0, status) := by
  intro rt wt rest threads status h
  unfold waitThreadsRun
  rw [if_neg]
  simp only [anyRunning, List.any_eq_true, Bool.not_eq_true]
  rintro ⟨t, ht, hmem⟩
  exact h t ht (by simpa using hmem)

/-- Closed instance of `waitThreads_spec`. -/
theorem waitThreads_spec_witness :
    waitThreadsRun [([5], []), ([1], [])] [1, 2] ThreadStatus.running =
      some (0, ThreadStatus.running) :=
  waitThreads_spec [5] [] [([1], [])] [1, 2] ThreadStatus.running (by decide)

/-- C10: whatever listeners were registered through `on`, `emit` never
invokes one and always throws a TypeError: `indexOf` over the record array
returns a number (always `-1` here, a string being never strictly equal to
a record object), `.listener` on that number is `undefined`, and calling
`undefined` throws. -/
theorem emit_spec :
    ∀ (regs : List (String × Nat)) (eventName : String) (args : List JSVal),
      (regs.foldl (fun (e : EventEmitter) p => e.on p.1 p.2) (EventEmitter.mk [])).emit eventName args =
        EmitOutcome.typeError ∧
      ∀ (l : Nat) (a : List JSVal),
        (regs.foldl (fun (e : EventEmitter) p => e.on p.1 p.2) (EventEmitter.mk [])).emit eventName args ≠
          EmitOutcome.called l a := by
  intro regs eventName args
  refine ⟨rfl, ?_⟩
  intro l a
  rw [show (regs.foldl (fun (e : EventEmitter) p => e.on p.1 p.2) (EventEmitter.mk [])).emit eventName args =
    EmitOutcome.typeError from rfl]
  simp

/-- C2 counterexample: the assembled unit for the source `1 + 1` contains
the `listIndex` definition although `listIndex` occurs nowhere in that
source and is not one of the two base helpers the claim allows. -/
theorem insertRuntime_counterexample :
    "listIndex" ∈ insertRuntimeDefs "1 + 1" ∧
    jsIncludes "1 + 1" "listIndex" = false ∧
    "listIndex" ∉ ["isWhiteSpace", "compareEqual"] := by
  decide

/-- C2 (amended): the assembled unit is the three always-included base
definitions (`isWhiteSpace`, `compareEqual`, `listIndex`) followed by
exactly the primitives whose identifiers occur textually in the source;
a script referencing `mod` and `listGet` gets exactly those two plus the
base three, and not `randomInt`. -/
theorem insertRuntime_spec :
    (∀ (source name : String),
      name ∈ insertRuntimeDefs source ↔
        name ∈ baseRuntimeDefs ∨
          (name ∈ runtimeFunctionNames ∧ jsIncludes source name = true))
  ∧ insertRuntimeDefs "mod(listGet(L, 1), 2)" =
      ["isWhiteSpace", "compareEqual", "listIndex", "listGet", "mod"]
  ∧ "randomInt" ∉ insertRuntimeDefs "mod(listGet(L, 1), 2)" := by
  refine ⟨?_, by decide, by decide⟩
  intro source name
  unfold insertRuntimeDefs
  simp [List.mem_filter]

/-- The floored-modulo identity behind C5. -/
theorem mod_eq_floored (n m : ℚ) (hm : m ≠ 0) :
    mod n m = n - m * (⌊n / m⌋ : ℚ) := by
  unfold mod jsRem ratTrunc
  have key : ∀ t : ℤ, (n - m * (t : ℚ)) / m = n / m - t := by
    intro t
    field_simp
  by_cases h0 : 0 ≤ n / m
  · rw [if_pos h0]
    rw [if_neg]
    rw [key, not_lt, sub_nonneg]
    exact Int.floor_le _
  · rw [if_neg h0]
    by_cases hint : n / m = (⌊n / m⌋ : ℚ)
    · have hc : ⌈n / m⌉ = ⌊n / m⌋ := by
        rw [hint, Int.ceil_intCast]
        exact (Int.floor_intCast _).symm
      rw [hc, if_neg]
      rw [key, not_lt, sub_nonneg]
      exact Int.floor_le _
    · have hlt : (⌊n / m⌋ : ℚ) < n / m :=
        lt_of_le_of_ne (Int.floor_le _) (fun h => hint h.symm)
      have hc : ⌈n / m⌉ = ⌊n / m⌋ + 1 := by
        refine le_antisymm (Int.ceil_le_floor_add_one _) ?_
        have : ⌊n / m⌋ < ⌈n / m⌉ := Int.lt_ceil.mpr hlt
        omega
      rw [hc, if_pos]
      · push_cast
        ring
      · rw [key]
        push_cast
        have := Int.lt_floor_add_one (n / m)
        linarith

/-- C5: `mod` is floored-division modulo, its result is `≥ 0` for a
positive modulus and `≤ 0` for a negative one, and in particular
`mod (-1) 4 = 3` and `mod 5 (-3) = -1`. -/
theorem mod_spec :
    (∀ n m : ℚ, m ≠ 0 →
      mod n m = n - m * (⌊n / m⌋ : ℚ) ∧
      (0 < m → 0 ≤ mod n m) ∧ (m < 0 → mod n m ≤ 0))
  ∧ mod (-1) 4 = 3 ∧ mod 5 (-3) = -1 := by
  refine ⟨?_, ?_, ?_⟩
  · intro n m hm
    have hid := mod_eq_floored n m hm
    have hprod : mod n m = m * (n / m - (⌊n / m⌋ : ℚ)) := by
      rw [hid, mul_sub, mul_div_cancel₀ _ hm]
    have hnn : 0 ≤ n / m - (⌊n / m⌋ : ℚ) := sub_nonneg.mpr (Int.floor_le _)
    refine ⟨hid, ?_, ?_⟩
    · intro hmp
      rw [hprod]
      exact mul_nonneg hmp.le hnn
    · intro hmn
      rw [hprod]
      exact mul_nonpos_iff.mpr (Or.inr ⟨hmn.le, hnn⟩)
  · have h : ⌈(-(1 / 4) : ℚ)⌉ = 0 := by
      rw [Int.ceil_eq_iff]
      norm_num
    simp only [mod, jsRem, ratTrunc]
    norm_num [h]
  · have h : ⌈(-(5 / 3) : ℚ)⌉ = -1 := by
      rw [Int.ceil_eq_iff]
      norm_num
    simp only [mod, jsRem, ratTrunc]
    norm_num [h]

/-- Closed instance of `mod_spec`. -/
theorem mod_spec_witness :
    mod (-2) 5 = -2 - 5 * (⌊(-2 : ℚ) / 5⌋ : ℚ) ∧ 0 ≤ mod (-2) 5 :=
  ⟨(mod_spec.1 (-2) 5 (by norm_num)).1,
   (mod_spec.1 (-2) 5 (by norm_num)).2.1 (by norm_num)⟩

/-- C6: `listContents` joins with no separator when every element
stringifies to exactly one character and with a single space otherwise;
`[1,2,3]` yields `123` and `[1,22,3]` yields `1 22 3`. -/
theorem listContents_spec :
    (∀ (l : List JSVal) (b : Bool),
      ((∀ x ∈ l, (jsToString x).length = 1) →
        listContents ⟨l, b⟩ = jsJoin "" l) ∧
      ((∃ x ∈ l, (jsToString x).length ≠ 1) →
        listContents ⟨l, b⟩ = jsJoin " " l))
  ∧ listContents ⟨[.num 1, .num 2, .num 3], true⟩ = "123"
  ∧ listContents ⟨[.num 1, .num 22, .num 3], true⟩ = "1 22 3" := by
  refine ⟨?_, by decide, by decide⟩
  intro l b
  constructor
  · intro h
    have hc : l.any (fun listItem => !((jsToString listItem).length == 1)) = false := by
      rw [List.any_eq_false]
      intro x hx
      simp [h x hx]
    simp only [listContents]
    rw [hc]
    simp
  · intro h
    have hc : l.any (fun listItem => !((jsToString listItem).length == 1)) = true := by
      rw [List.any_eq_true]
      obtain ⟨x, hx, hlen⟩ := h
      exact ⟨x, hx, by simpa using hlen⟩
    simp only [listContents]
    rw [hc]
    simp

/-- Closed instance of `listContents_spec`. -/
theorem listContents_spec_witness :
    listContents ⟨[.str "a"], true⟩ = jsJoin "" [.str "a"] ∧
    listContents ⟨[.str "ab"], false⟩ = jsJoin " " [.str "ab"] :=
  ⟨(listContents_spec.1 [.str "a"] true).1 (by decide),
   (listContents_spec.1 [.str "ab"] false).2 ⟨.str "ab", by decide, by decide⟩⟩

/-- C7 counterexample: `listDelete` with `'all'` on a list whose
`_monitorUpToDate` flag is `true` mutates the list (it becomes empty, so
it is not left unchanged) yet does not set the flag to `false`. -/
theorem listMutation_counterexample :
    (listDelete 0 ⟨[.num 1], true⟩ (.str "all")).value = [] ∧
    (listDelete 0 ⟨[.num 1], true⟩ (.str "all"))._monitorUpToDate = true ∧
    listDelete 0 ⟨[.num 1], true⟩ (.str "all") ≠ ⟨[.num 1], true⟩ := by
  decide

/-- C7 (amended): `listReplace`, `listInsert`, and index-based `listDelete`
leave the list entirely unchanged when the index is invalid and set
`_monitorUpToDate` to `false` on every successful mutation; the exception
is `listDelete` with `'all'`, which empties the list while leaving
`_monitorUpToDate` untouched. -/
theorem listMutation_spec :
    (∀ (r : ℚ) (list : ScratchList) (idx value : JSVal),
      (listIndex r idx list.value.length = -1 →
        listReplace r list idx value = list) ∧
      (listIndex r idx list.value.length ≠ -1 →
        (listReplace r list idx value)._monitorUpToDate = false))
  ∧ (∀ (r : ℚ) (list : ScratchList) (idx value : JSVal),
      (listIndex r idx (list.value.length + 1) = -1 →
        listInsert r list idx value = list) ∧
      (listIndex r idx (list.value.length + 1) ≠ -1 →
        (listInsert r list idx value)._monitorUpToDate = false))
  ∧ (∀ (r : ℚ) (list : ScratchList) (idx : JSVal), idx ≠ .str "all" →
      (listIndex r idx list.value.length = -1 → listDelete r list idx = list) ∧
      (listIndex r idx list.value.length ≠ -1 →
        (listDelete r list idx)._monitorUpToDate = false))
  ∧ (∀ (r : ℚ) (list : ScratchList),
      (listDelete r list (.str "all")).value = [] ∧
      (listDelete r list (.str "all"))._monitorUpToDate =
        list._monitorUpToDate) := by
  refine ⟨?_, ?_, ?_, ?_⟩
  · intro r list idx value
    constructor
    · intro h
      simp only [listReplace]
      rw [if_pos h]
    · intro h
      simp only [listReplace]
      rw [if_neg h]
  · intro r list idx value
    constructor
    · intro h
      simp only [listInsert]
      rw [if_pos h]
    · intro h
      simp only [listInsert]
      rw [if_neg h]
  · intro r list idx hne
    constructor
    · intro h
      simp only [listDelete]
      rw [if_neg hne, if_pos h]
    · intro h
      simp only [listDelete]
      rw [if_neg hne, if_neg h]
  · intro r list
    simp [listDelete]

/-- Closed instance of `listMutation_spec`. -/
theorem listMutation_spec_witness :
    listReplace 0 ⟨[.num 1], true⟩ (.num 2) (.num 9) = ⟨[.num 1], true⟩ ∧
    (listReplace 0 ⟨[.num 1], true⟩ (.num 1) (.num 9))._monitorUpToDate = false ∧
    (listInsert 0 ⟨[.num 1], true⟩ (.num 2) (.num 9))._monitorUpToDate = false ∧
    listDelete 0 ⟨[.num 1], true⟩ (.num 0) = ⟨[.num 1], true⟩ ∧
    (listDelete 0 ⟨[.num 1], true⟩ (.num 1))._monitorUpToDate = false ∧
    (listDelete 0 ⟨[.num 1], true⟩ (.str "all"))._monitorUpToDate = true :=
  ⟨(listMutation_spec.1 0 ⟨[.num 1], true⟩ (.num 2) (.num 9)).1 (by decide),
   (listMutation_spec.1 0 ⟨[.num 1], true⟩ (.num 1) (.num 9)).2 (by decide),
   (listMutation_spec.2.1 0 ⟨[.num 1], true⟩ (.num 2) (.num 9)).2 (by decide),
   (listMutation_spec.2.2.1 0 ⟨[.num 1], true⟩ (.num 0) (by decide)).1 (by decide),
   (listMutation_spec.2.2.1 0 ⟨[.num 1], true⟩ (.num 1) (by decide)).2 (by decide),
   (listMutation_spec.2.2.2 0 ⟨[.num 1], true⟩).2⟩

/-- Fallback path of `compareEqual` when either coercion is `NaN`. -/
theorem compareEqual_nan (v1 v2 : JSVal)
    (h : jsToNumber v1 = none ∨ jsToNumber v2 = none) :
    compareEqual v1 v2 = strEqCI v1 v2 := by
  simp only [compareEqual]
  rcases h with h | h <;> rw [h] <;> split <;> try rfl
  all_goals
    rename_i a b heq
    exfalso
    split at heq <;> (try split at heq) <;> simp at heq

/-- Whitespace-as-zero carve-out of `compareEqual`, left operand. -/
theorem compareEqual_ws1 (v1 v2 : JSVal)
    (h : jsToNumber v1 = some 0) (hw : isWhiteSpace v1 = true) :
    compareEqual v1 v2 = strEqCI v1 v2 := by
  simp only [compareEqual]
  rw [h, hw]
  simp only [beq_self_eq_true, Bool.and_true, if_pos]

/-- Whitespace-as-zero carve-out of `compareEqual`, right operand. -/
theorem compareEqual_ws2 (v1 v2 : JSVal)
    (h : jsToNumber v2 = some 0) (hw : isWhiteSpace v2 = true) :
    compareEqual v1 v2 = strEqCI v1 v2 := by
  simp only [compareEqual]
  rw [h, hw]
  by_cases h1 : (jsToNumber v1 == some 0 && isWhiteSpace v1) = true
  · rw [if_pos h1]
  · rw [if_neg h1]
    simp only [beq_self_eq_true, Bool.and_true, if_pos]
    cases hn : jsToNumber v1 <;> rfl

/-- Numeric path of `compareEqual`. -/
theorem compareEqual_num (v1 v2 : JSVal) (a b : ℚ)
    (h1 : jsToNumber v1 = some a) (h2 : jsToNumber v2 = some b)
    (hc1 : ¬(a = 0 ∧ isWhiteSpace v1 = true))
    (hc2 : ¬(b = 0 ∧ isWhiteSpace v2 = true)) :
    (compareEqual v1 v2 = true ↔ a = b) := by
  simp only [compareEqual]
  rw [h1, h2]
  rw [if_neg, if_neg]
  · simp
  · simp only [Bool.and_eq_true, beq_iff_eq, Option.some_inj]
    rintro ⟨hb, hw⟩
    exact hc2 ⟨hb, hw⟩
  · simp only [Bool.and_eq_true, beq_iff_eq, Option.some_inj]
    rintro ⟨hb, hw⟩
    exact hc1 ⟨hb, hw⟩

/-- C1 counterexample: `compareEqual(" ", 0)` and `compareEqual(" ", "")`
are both false on the code (the claim asserts both are true): after the
whitespace carve-out makes the left side not-a-number, the string path
compares the original `" "` with `"0"` (resp. `""`) without trimming. -/
theorem compareEqual_counterexample :
    compareEqual (.str " ") (.num 0) = false ∧
    compareEqual (.str " ") (.str "") = false := by
  decide

/-- C1 (amended): `compareEqual` coerces both operands numerically,
treats a whitespace-only (or null) operand that coerced to zero as
not-a-number, and falls back to case-insensitive string comparison when
either side is not-a-number; in particular `compareEqual(" ", 0)` is
false, `compareEqual("0", 0)` is true, and `compareEqual(" ", "")` is
false. -/
theorem compareEqual_spec :
    (∀ v1 v2 : JSVal, jsToNumber v1 = none ∨ jsToNumber v2 = none →
      compareEqual v1 v2 = strEqCI v1 v2)
  ∧ (∀ v1 v2 : JSVal, jsToNumber v1 = some 0 → isWhiteSpace v1 = true →
      compareEqual v1 v2 = strEqCI v1 v2)
  ∧ (∀ v1 v2 : JSVal, jsToNumber v2 = some 0 → isWhiteSpace v2 = true →
      compareEqual v1 v2 = strEqCI v1 v2)
  ∧ (∀ (v1 v2 : JSVal) (a b : ℚ),
      jsToNumber v1 = some a → jsToNumber v2 = some b →
      ¬(a = 0 ∧ isWhiteSpace v1 = true) → ¬(b = 0 ∧ isWhiteSpace v2 = true) →
      (compareEqual v1 v2 = true ↔ a = b))
  ∧ compareEqual (.str " ") (.num 0) = false
  ∧ compareEqual (.str "0") (.num 0) = true
  ∧ compareEqual (.str " ") (.str "") = false :=
  ⟨compareEqual_nan, compareEqual_ws1, compareEqual_ws2, compareEqual_num,
   by decide, by decide, by decide⟩

/-- Closed instance of `compareEqual_spec`. -/
theorem compareEqual_spec_witness :
    compareEqual JSVal.nan (.str "x") = strEqCI JSVal.nan (.str "x") ∧
    compareEqual (.str " ") (.str "q") = strEqCI (.str " ") (.str "q") ∧
    compareEqual (.num 7) (.str " ") = strEqCI (.num 7) (.str " ") ∧
    (compareEqual (.num 7) (.num 7) = true ↔ (7 : ℚ) = 7) :=
  ⟨compareEqual_spec.1 _ _ (Or.inl rfl),
   compareEqual_spec.2.1 _ _ (by decide) (by decide),
   compareEqual_spec.2.2.1 _ _ (by decide) (by decide),
   compareEqual_spec.2.2.2.1 _ _ 7 7 (by decide) (by decide) (by decide) (by decide)⟩

/-- Range check of `listIndex` with an empty list: always `-1`. -/
theorem finishIdx_zero (i : Int) : finishIdx i 0 = -1 := by
  unfold finishIdx
  have h : i < 1 ∨ i > ((0 : Nat) : Int) := by omega
  rw [if_pos h]

/-- C4 counterexample: `1.5` lies outside `[1, 1]`, yet
`listIndex(1.5, 1)` is `0`, not `-1` -- `index | 0` truncates `1.5` to
`1` before the range check. -/
theorem listIndex_counterexample :
    ¬((1 : ℚ) ≤ mkRat 3 2 ∧ mkRat 3 2 ≤ (1 : ℚ)) ∧
    listIndex 0 (.num (mkRat 3 2)) 1 = 0 := by
  constructor
  · decide
  · decide

/-- C4 (amended): `listIndex` returns `-1` whenever the `ToInt32`
truncation of a numeric index lies outside `[1, length]`, and always
returns `-1` when the length is `0` (for every index value, symbolic ones
included); for `'last'` with positive length it returns `length - 1`. -/
theorem listIndex_spec :
    (∀ (r q : ℚ) (length : Nat),
      jsToInt32 q < 1 ∨ jsToInt32 q > (length : Int) →
      listIndex r (.num q) length = -1)
  ∧ (∀ (r : ℚ) (idx : JSVal), listIndex r idx 0 = -1)
  ∧ (∀ (r : ℚ) (length : Nat), 0 < length →
      listIndex r (.str "last") length = (length : Int) - 1) := by
  refine ⟨?_, ?_, ?_⟩
  · intro r q length h
    simp only [listIndex, finishIdx]
    rw [if_pos h]
  · intro r idx
    cases idx with
    | num q => exact finishIdx_zero _
    | nan => exact finishIdx_zero _
    | null => exact finishIdx_zero _
    | bool b => exact finishIdx_zero _
    | str s =>
      simp only [listIndex]
      by_cases hl : s = "last"
      · rw [if_pos hl]
        simp
      · rw [if_neg hl]
        by_cases hr : s = "random" ∨ s = "*"
        · rw [if_pos hr]
          simp
        · rw [if_neg hr]
          exact finishIdx_zero _
  · intro r length h
    simp only [listIndex, if_true]
    rw [if_pos h]

/-- Closed instance of `listIndex_spec`. -/
theorem listIndex_spec_witness :
    listIndex 0 (.num 5) 3 = -1 ∧ listIndex 0 (.str "x") 0 = -1 ∧
    listIndex 0 (.str "last") 4 = 3 := by
  refine ⟨listIndex_spec.1 0 5 3 (Or.inr (by decide)),
          listIndex_spec.2.1 0 (.str "x"), ?_⟩
  have h := listIndex_spec.2.2 0 4 (by omega)
  rw [h]
  decide

end SVM
